import Mathlib

/-!
# Verikey backend — shallow embedding and verification

Shallow embedding of the shareable-key / verification-request engine of the
verikey backend (`verikey/keys.py`, `verikey/verification.py`,
`verikey/verification_helpers.py`, `verikey/models.py`), together with
theorems settling the specification claims about it.

Conventions of the embedding:
* SQLAlchemy rows become Lean structures; nullable columns become `Option`.
* JSON dict payloads become structures whose fields are `Option` (a missing
  dict key is `none`); Python truthiness tests `not data.get(k)` on strings
  and lists are modelled as emptiness tests.
* Integers are Lean `Int` (Python ints are exact, no overflow).
* Timestamps are opaque `Nat` tick values; `datetime.utcnow()` becomes an
  explicit `now` parameter.
* Each Flask handler becomes a function from the acting user id and the
  addressed row(s) to a result value paired with the post-state of the
  row(s); the `db.session.commit()` at the end of a handler corresponds to
  returning the mutated row, and the `except`/`rollback` path to returning
  the row unchanged together with an error result.
-/

set_option autoImplicit false

namespace Verikey

/-- Status values taken by `ShareableKey.status` in the source
(`'active'`, `'viewed_out'`, `'revoked'`, `'removed'`). -/
inductive KeyStatus
  | active
  | viewed_out
  | revoked
  | removed
deriving DecidableEq, Repr

/-- The JSON object stored under the `location` key of a bundle.  The source
writes dicts with a `cityDisplay` entry and (on one code path) raw
`latitude` / `longitude` entries; a field is `none` when the dict lacks that
key.  Coordinate values are kept as opaque strings (their numeric value is
never interpreted by the backend). -/
structure LocationData where
  cityDisplay : Option String
  latitude : Option String
  longitude : Option String
deriving DecidableEq, Repr

/-- The JSON object stored under the `selfie` / `photo` keys of a bundle:
`{status: captured|not_captured, image_data, captured_at}`. -/
structure ImageData where
  status : String
  image_data : Option String
  captured_at : Option String
deriving DecidableEq, Repr

/-- The `verification_badge` entry appended to a bundle when the responding
user is verified.  `verified_at` / `verification_level` are written by the
`create_shareable_key` variant only; the other builders omit them. -/
structure VerificationBadge where
  verified : Bool
  verified_at : Option String
  verification_level : Option String
  message : String
deriving DecidableEq, Repr

/-- The information bundle (`ShareableKey.user_data`, a JSON dict).  Each
field is `none` when the corresponding key is absent from the dict. -/
structure UserData where
  fullname : Option String
  firstname : Option String
  age : Option String
  is_verified : Option Bool
  location : Option LocationData
  selfie : Option ImageData
  photo : Option ImageData
  verification_badge : Option VerificationBadge
deriving DecidableEq, Repr

/-- The empty bundle (`user_data = {}` before the builder loop runs). -/
def UserData.empty : UserData :=
  ⟨none, none, none, none, none, none, none, none⟩

/-- A row of the `shareable_keys` table (model `ShareableKey` in
`verikey/models.py`), restricted to the columns the key engine reads or
writes. -/
structure ShareableKey where
  id : Nat
  key_uuid : String
  creator_id : Nat
  recipient_user_id : Option Nat
  recipient_email : Option String
  label : String
  notes : String
  status : KeyStatus
  views_allowed : Int
  views_used : Int
  is_shareable_link : Bool
  information_types : List String
  user_data : UserData
  last_viewed_at : Option Nat
deriving DecidableEq, Repr

/-- A row of the `users` table, restricted to the fields the request/key
engine reads.  `age` abstracts the date-of-birth arithmetic of the `User.age`
property (`none` when no date of birth is usable); `first_name` /
`last_name` are `Option` so that the source's truthiness checks on them can
be expressed. -/
structure User where
  id : Nat
  email : String
  screen_name : String
  first_name : Option String
  last_name : Option String
  verified_first_name : Option String
  verified_last_name : Option String
  age : Option Int
  is_verified : Bool
  is_active : Bool
  verified_at : Option String
  verification_level : Option String
deriving DecidableEq, Repr

/-- Python truthiness of an optional string (`None` and `''` are falsy). -/
def pyTruthy (o : Option String) : Bool :=
  o.getD "" ≠ ""

/-- Rendering of a possibly-`None` value inside a Python f-string. -/
def pyShow (o : Option String) : String :=
  o.getD "None"

/-- `User.display_first_name`: prefers `verified_first_name` once the user
is verified and that field is truthy. -/
def display_first_name (u : User) : Option String :=
  if u.is_verified ∧ pyTruthy u.verified_first_name then u.verified_first_name
  else u.first_name

/-- `User.display_last_name`. -/
def display_last_name (u : User) : Option String :=
  if u.is_verified ∧ pyTruthy u.verified_last_name then u.verified_last_name
  else u.last_name

/-- `User.display_full_name` (an f-string over the two display names). -/
def display_full_name (u : User) : String :=
  pyShow (display_first_name u) ++ " " ++ pyShow (display_last_name u)

/-- Request status values (`'pending'`, `'completed'`, `'denied'`,
`'cancelled'`). -/
inductive RequestStatus
  | pending
  | completed
  | denied
  | cancelled
deriving DecidableEq, Repr

/-- A row of the `requests` table (model `Request`), restricted to the
columns the request engine reads or writes.  `requester_email` carries the
`request.requester.email` relationship value used when fulfilling. -/
structure Request where
  id : Nat
  requester_id : Nat
  requester_email : String
  target_user_id : Option Nat
  target_email : String
  label : String
  notes : String
  status : RequestStatus
  information_types : List String
  response_at : Option Nat
deriving DecidableEq, Repr

/-! ## Title validator (`validate_title` in `keys.py` / `verification.py`) -/

/-- Python `s.strip()`: drop whitespace from both ends.  (Implemented over
the character list so that it is structurally recursive and hence
kernel-evaluable, unlike `String.trim`.) -/
def pyStrip (s : String) : String :=
  ⟨((s.data.dropWhile Char.isWhitespace).reverse.dropWhile Char.isWhitespace).reverse⟩

/-- Python `title.split()`: split on whitespace, dropping empty pieces. -/
def pySplit (s : String) : List String :=
  ((s.data.splitOnP Char.isWhitespace).map (fun l => String.mk l)).filter
    (fun w => w ≠ "")

/-- `validate_title(title)` from the source: returns `(is_valid, message)`. -/
def validate_title (title : String) : Bool × String :=
  if pyStrip title = "" then
    (false, "Title is required")
  else
    let t := pyStrip title
    if t.length < 3 then
      (false, "Title must be at least 3 characters")
    else if t.length > 30 then
      (false, "Title must be no more than 30 characters")
    else
      let words := pySplit t
      if words.length = 1 ∧ t.length > 20 then
        (false, "Title appears to be a single long word. Please use a descriptive title")
      else if words.any (fun w => w.length > 15) then
        (false, "Individual words in title cannot exceed 15 characters")
      else if ¬ (t.data.any Char.isAlpha) then
        (false, "Title must contain at least some letters")
      else
        (true, "")

/-! ## Key read path (`get_key_details` in `keys.py`) -/

/-- The location normalisation applied by `get_key_details` before returning
a bundle: when the bundle has a `location` dict it is replaced by a dict
holding only `cityDisplay` (defaulted to `'Location shared'`). -/
def sanitize_location (d : UserData) : UserData :=
  match d.location with
  | none => d
  | some loc =>
      { d with location := some ⟨some (loc.cityDisplay.getD "Location shared"), none, none⟩ }

/-- The `key_details` body assembled by `get_key_details` on the 200 path
(display-only creator/recipient sub-objects omitted: they are joins against
the `users` table that the key engine itself never reads back). -/
structure KeyDetails where
  id : Nat
  key_uuid : String
  label : String
  status : KeyStatus
  information_types : List String
  user_data : UserData
  views_used : Int
  views_allowed : Int
  views_remaining : Int
  is_shareable_link : Bool
  notes : String
  last_viewed_at : Option Nat
deriving DecidableEq, Repr

/-- Outcome of `get_key_details`: 404 (no row matches the id for this
actor), the 403 exhausted-views body, or the 200 body. -/
inductive DetailsResult
  | notFound
  | exhausted (views_used views_allowed : Int)
  | ok (details : KeyDetails)
deriving DecidableEq, Repr

/-- Whether a `DetailsResult` is the 200 outcome. -/
def DetailsResult.isOk : DetailsResult → Bool
  | .ok _ => true
  | _ => false

/-- The bundle carried by a 200 outcome, if any. -/
def DetailsResult.bundle : DetailsResult → Option UserData
  | .ok d => some d.user_data
  | _ => none

/-- The `key_details` dict `get_key_details` assembles from the (possibly
just mutated) row on its 200 path. -/
def mk_details (key : ShareableKey) : KeyDetails :=
  { id := key.id
    key_uuid := key.key_uuid
    label := key.label
    status := key.status
    information_types := key.information_types
    user_data := sanitize_location key.user_data
    views_used := key.views_used
    views_allowed := key.views_allowed
    views_remaining := max 0 (key.views_allowed - key.views_used)
    is_shareable_link := key.is_shareable_link
    notes := key.notes
    last_viewed_at := key.last_viewed_at }

/-- `get_key_details(current_user_id, key_id)` acting on the (unique) row
with the addressed id.  Returns the response and the post-state of the row.
The query filters on `id == key_id AND (creator_id == uid OR
recipient_user_id == uid)`, so a non-party actor gets the 404 branch.  The
403 branch fires only for the bound recipient of a `viewed_out` key with an
exhausted counter; the view is counted (and `viewed_out` entered when the
incremented counter reaches the budget) only for the bound recipient of an
`active` key; every surviving call, mutating or not, returns the assembled
details. -/
def get_key_details (uid : Nat) (key : ShareableKey) (now : Nat) :
    DetailsResult × ShareableKey :=
  if ¬ (key.creator_id = uid ∨ key.recipient_user_id = some uid) then
    (.notFound, key)
  else if key.recipient_user_id = some uid ∧ key.status = .viewed_out ∧
      key.views_used ≥ key.views_allowed then
    (.exhausted key.views_used key.views_allowed, key)
  else
    let key' :=
      if key.recipient_user_id = some uid ∧ key.status = .active then
        let k := { key with views_used := key.views_used + 1, last_viewed_at := some now }
        if k.views_used ≥ k.views_allowed then { k with status := .viewed_out } else k
      else key
    (.ok (mk_details key'), key')

/-! ## Exhausted-key sweep (`get_all_keys` in `keys.py`, lines 48-56) -/

/-- The per-key body of the sweep loop in `get_all_keys`: an `active` key
whose `views_used >= views_allowed` is moved to `viewed_out`; every other
key is untouched. -/
def sweep_key (key : ShareableKey) : ShareableKey :=
  if key.status = .active ∧ key.views_used ≥ key.views_allowed then
    { key with status := .viewed_out }
  else
    key

/-- The sweep pass of `get_all_keys` over the keys it loaded. -/
def sweep_exhausted (keys : List ShareableKey) : List ShareableKey :=
  keys.map sweep_key

/-! ## Status reconciliation helper
(`KeyStatusManager` in `verification_helpers.py`) -/

/-- `KeyStatusManager.should_be_active(key)`. -/
def should_be_active (key : ShareableKey) : Bool :=
  key.status ≠ .revoked ∧ key.views_used < key.views_allowed

/-- `KeyStatusManager.update_status_if_needed(key)`: returns the updated row
and whether the status changed.  A `revoked` row is returned untouched; any
other row with `views_used >= views_allowed` is set to `viewed_out`; a
`viewed_out` row with `views_used < views_allowed` is set back to
`active`. -/
def update_status_if_needed (key : ShareableKey) : ShareableKey × Bool :=
  if key.status = .revoked then
    (key, false)
  else
    let key' :=
      if key.views_used ≥ key.views_allowed then
        { key with status := .viewed_out }
      else if key.status = .viewed_out ∧ key.views_used < key.views_allowed then
        { key with status := .active }
      else
        key
    (key', key'.status ≠ key.status)

/-! ## Revoke, delete, remove (`keys.py`) -/

/-- Outcome of `revoke_key`. -/
inductive RevokeResult
  | notFound
  | badStatus (s : KeyStatus)
  | ok
deriving DecidableEq, Repr

/-- `revoke_key(current_user_id, key_id)` acting on the addressed row.  The
query filters on `creator_id == uid`, so a non-creator gets 404; revoking a
non-`active` key is a 400; otherwise the status becomes `revoked`. -/
def revoke_key (uid : Nat) (key : ShareableKey) : RevokeResult × ShareableKey :=
  if key.creator_id ≠ uid then
    (.notFound, key)
  else if key.status ≠ .active then
    (.badStatus key.status, key)
  else
    (.ok, { key with status := .revoked })

/-- Outcome of `delete_key`. -/
inductive DeleteResult
  | rejectedActive
  | deleted
  | notFound
deriving DecidableEq, Repr

/-- `delete_key(current_user_id, key_id)` acting on the addressed row.  The
source first queries by `(id, creator_id)`: a creator hit with status
`active` is rejected (400), any other creator hit is deleted.  Otherwise it
queries by `(id, recipient_user_id)`: a recipient hit is deleted with no
status check.  The second component is the row's existence afterwards. -/
def delete_key (uid : Nat) (key : ShareableKey) : DeleteResult × Option ShareableKey :=
  if key.creator_id = uid then
    if key.status = .active then
      (.rejectedActive, some key)
    else
      (.deleted, none)
  else if key.recipient_user_id = some uid then
    (.deleted, none)
  else
    (.notFound, some key)

/-- `remove_received_key(current_user_id, key_id)` acting on the addressed
row.  The query filters on `recipient_user_id == uid`; on a hit the status
is set to `removed` unconditionally (no check of the current status). -/
def remove_received_key (uid : Nat) (key : ShareableKey) : Bool × ShareableKey :=
  if key.recipient_user_id = some uid then
    (true, { key with status := .removed })
  else
    (false, key)

/-! ## Bundle builder of `create_shareable_key` (`keys.py`, POST `/keys`) -/

/-- The JSON request body of `create_shareable_key`, restricted to the keys
the bundle builder reads.  `user_data_location` / `user_data_selfie` /
`user_data_photo` stand for `data['user_data']['location']` etc. -/
structure CreateKeyData where
  label : Option String
  recipient_email : Option String
  is_shareable_link : Option Bool
  information_types : Option (List String)
  views_allowed : Option Int
  notes : Option String
  location_data : Option LocationData
  user_data_location : Option LocationData
  selfie_data : Option String
  user_data_selfie : Option ImageData
  photo_data : Option String
  user_data_photo : Option ImageData
deriving DecidableEq, Repr

/-- Python `str(age) if age else fallback` for the `Option Int` age
property (`None` and `0` are falsy). -/
def ageString (age : Option Int) (fallback : String) : String :=
  match age with
  | some a => if a ≠ 0 then toString a else fallback
  | none => fallback

/-- One iteration of the `for info_type in information_types` loop of
`create_shareable_key`. -/
def create_key_apply (u : User) (data : CreateKeyData) (now : Nat)
    (acc : UserData) (t : String) : UserData :=
  if t = "fullname" then
    { acc with fullname := some (display_full_name u), is_verified := some u.is_verified }
  else if t = "firstname" then
    { acc with firstname := some (pyShow (display_first_name u)),
               is_verified := some u.is_verified }
  else if t = "age" then
    { acc with age := some (ageString u.age "Age not available"),
               is_verified := some u.is_verified }
  else if t = "location" then
    match data.location_data with
    | some ld =>
        { acc with location := some ⟨some (ld.cityDisplay.getD "Location captured"), none, none⟩ }
    | none =>
        match data.user_data_location with
        | some ld =>
            { acc with location := some ⟨some (ld.cityDisplay.getD "Location captured"), none, none⟩ }
        | none =>
            { acc with location := some ⟨some "Location not captured", none, none⟩ }
  else if t = "selfie" then
    match data.selfie_data with
    | some img =>
        { acc with selfie := some ⟨"captured", some img, some (toString now)⟩ }
    | none =>
        match data.user_data_selfie with
        | some s => { acc with selfie := some s }
        | none => { acc with selfie := some ⟨"not_captured", none, none⟩ }
  else if t = "photo" then
    match data.photo_data with
    | some img =>
        { acc with photo := some ⟨"captured", some img, some (toString now)⟩ }
    | none =>
        match data.user_data_photo with
        | some p => { acc with photo := some p }
        | none => { acc with photo := some ⟨"not_captured", none, none⟩ }
  else
    acc

/-- The bundle persisted by `create_shareable_key` for a creator `u`,
request body `data` and category list `types` (the builder loop followed by
the verified-badge append). -/
def create_key_user_data (u : User) (data : CreateKeyData) (now : Nat)
    (types : List String) : UserData :=
  let base := types.foldl (create_key_apply u data now) UserData.empty
  let badge : VerificationBadge :=
    ⟨true, u.verified_at, u.verification_level,
     "This information has been verified via government ID"⟩
  if u.is_verified then { base with verification_badge := some badge } else base

/-! ## Bundle builder of `submit_verification_response`
(`keys.py`, POST `/verifications`) -/

/-- The JSON request body of `submit_verification_response` in `keys.py`,
restricted to the keys its bundle builder reads. -/
structure SVRData where
  request_id : Option Nat
  latitude : Option String
  longitude : Option String
  cityDisplay : Option String
  photo_base64 : Option String
deriving DecidableEq, Repr

/-- One iteration of the builder loop of `submit_verification_response`
(`keys.py`).  The location branch persists only the city display string even
when raw coordinates are present in the submission. -/
def svr_apply (u : User) (data : SVRData) (now : Nat)
    (acc : UserData) (t : String) : UserData :=
  if t = "fullname" then
    { acc with fullname := some (display_full_name u), is_verified := some u.is_verified }
  else if t = "firstname" then
    { acc with firstname := some (pyShow (display_first_name u)),
               is_verified := some u.is_verified }
  else if t = "age" then
    { acc with age := some (ageString u.age "Age not provided"),
               is_verified := some u.is_verified }
  else if t = "location" then
    if data.latitude.isSome ∧ data.longitude.isSome then
      { acc with location := some ⟨some (data.cityDisplay.getD "Location captured"), none, none⟩ }
    else
      { acc with location := some ⟨some "Location not captured", none, none⟩ }
  else if t = "selfie" then
    match data.photo_base64 with
    | some img => { acc with selfie := some ⟨"captured", some img, some (toString now)⟩ }
    | none => { acc with selfie := some ⟨"not_captured", none, none⟩ }
  else if t = "photo" then
    match data.photo_base64 with
    | some img => { acc with photo := some ⟨"captured", some img, some (toString now)⟩ }
    | none => { acc with photo := some ⟨"not_captured", none, none⟩ }
  else
    acc

/-- The bundle persisted by `submit_verification_response` (`keys.py`). -/
def svr_user_data (u : User) (data : SVRData) (now : Nat)
    (types : List String) : UserData :=
  let base := types.foldl (svr_apply u data now) UserData.empty
  let badge : VerificationBadge :=
    ⟨true, none, none, "This information has been verified via government ID"⟩
  if u.is_verified then { base with verification_badge := some badge } else base

/-! ## Bundle builder of `submit_verification`
(`verification.py`, POST `/verifications`) -/

/-- The parsed `additional_data` JSON object of `submit_verification`
(absent, empty or unparsable `additional_data` all behave as the empty
dict).  The `age` override is kept as the string `str(...)` produces. -/
structure AdditionalData where
  fullname : Option String
  firstname : Option String
  age : Option String
deriving DecidableEq, Repr

/-- The empty `additional_data` dict. -/
def AdditionalData.empty : AdditionalData :=
  ⟨none, none, none⟩

/-- The JSON request body of `submit_verification` (`verification.py`),
restricted to the keys the handler reads. -/
structure SVData where
  request_id : Option Nat
  views_allowed : Option Int
  additional_data : Option AdditionalData
  latitude : Option String
  longitude : Option String
  location_city_display : Option String
  location_data : Option LocationData
  selfie_base64 : Option String
  photo_base64 : Option String
deriving DecidableEq, Repr

/-- One iteration of the builder loop of `submit_verification`
(`verification.py`).  Unlike the `keys.py` builders, the location branch
persists the raw `latitude` / `longitude` values when the submission
carries them, and a supplied `location_data` dict verbatim. -/
def sv_apply (u : User) (data : SVData) (now : Nat)
    (acc : UserData) (t : String) : UserData :=
  let ad := data.additional_data.getD AdditionalData.empty
  if t = "fullname" then
    match ad.fullname with
    | some v => { acc with fullname := some v }
    | none =>
        if pyTruthy u.first_name ∧ pyTruthy u.last_name then
          { acc with fullname := some (pyShow u.first_name ++ " " ++ pyShow u.last_name) }
        else
          { acc with fullname := some "Name not available" }
  else if t = "firstname" then
    match ad.firstname with
    | some v => { acc with firstname := some v }
    | none =>
        { acc with firstname := some (if pyTruthy u.first_name then pyShow u.first_name
                                      else "First name not available") }
  else if t = "age" then
    match ad.age with
    | some v => { acc with age := some v }
    | none => { acc with age := some (ageString u.age "Age not provided") }
  else if t = "location" then
    if data.latitude.isSome ∧ data.longitude.isSome then
      let loc : LocationData :=
        ⟨some (data.location_city_display.getD "Location captured"),
         data.latitude, data.longitude⟩
      { acc with location := some loc }
    else
      match data.location_data with
      | some ld => { acc with location := some ld }
      | none => { acc with location := some ⟨some "Location not captured", none, none⟩ }
  else if t = "selfie" then
    match data.selfie_base64 with
    | some img => { acc with selfie := some ⟨"captured", some img, some (toString now)⟩ }
    | none => { acc with selfie := some ⟨"not_captured", none, none⟩ }
  else if t = "photo" then
    match data.photo_base64 with
    | some img => { acc with photo := some ⟨"captured", some img, some (toString now)⟩ }
    | none => { acc with photo := some ⟨"not_captured", none, none⟩ }
  else
    acc

/-- The bundle persisted by `submit_verification` (`verification.py`).
This variant appends no verification badge. -/
def sv_user_data (u : User) (data : SVData) (now : Nat)
    (types : List String) : UserData :=
  types.foldl (sv_apply u data now) UserData.empty

/-! ## Request creation (`create_request` in `verification.py`) -/

/-- The JSON request body of `create_request`, restricted to the keys the
handler reads. -/
structure CreateRequestData where
  label : Option String
  target_email : Option String
  notes : Option String
  information_types : Option (List String)
deriving DecidableEq, Repr

/-- The persistent state `create_request` touches: the `users` table it
resolves targets against and the `requests` table it inserts into. -/
structure RequestsDb where
  users : List User
  requests : List Request
deriving DecidableEq, Repr

/-- Outcome of `create_request`: a 400 with a message, or a 201 with the
new request id. -/
inductive CreateRequestResult
  | badRequest (msg : String)
  | created (request_id : Nat)
deriving DecidableEq, Repr

/-- Whether a `CreateRequestResult` is the 201 outcome. -/
def CreateRequestResult.isCreated : CreateRequestResult → Bool
  | .created _ => true
  | _ => false

/-- Python `identifier.lstrip('@')`. -/
def pyLstripAt (s : String) : String :=
  ⟨s.data.dropWhile (fun c => c = '@')⟩

/-- Python `s.lower()` (character-wise lower-casing, structurally
recursive). -/
def pyLower (s : String) : String :=
  ⟨s.data.map Char.toLower⟩

/-- Target resolution of `create_request`: first user whose `email` equals
the identifier verbatim, else first user whose `screen_name` equals the
identifier with leading `@` stripped and lower-cased.  (Neither lookup
filters on `is_active`.) -/
def resolve_target (users : List User) (ident : String) : Option User :=
  match users.find? (fun u => u.email = ident) with
  | some u => some u
  | none => users.find? (fun u => u.screen_name = pyLower (pyLstripAt ident))

/-- `create_request(current_user_id)` with body `data` against database
`db`; `new_id` is the id the insert allocates.  Mirrors the handler:
label-presence and `validate_title` guards, target-email and
information-types presence guards, target resolution, then unconditional
insert of a `pending` row — the handler has no self-target and no
duplicate-pending check. -/
def create_request (uid : Nat) (data : CreateRequestData) (db : RequestsDb)
    (new_id : Nat) : CreateRequestResult × RequestsDb :=
  if (data.label.getD "") = "" then
    (.badRequest "Title is required", db)
  else if ¬ (validate_title (data.label.getD "")).1 then
    (.badRequest (validate_title (data.label.getD "")).2, db)
  else if (data.target_email.getD "") = "" then
    (.badRequest "Target email is required", db)
  else if (data.information_types.getD []) = [] then
    (.badRequest "Information types are required", db)
  else
    let cleaned_title := pyStrip (data.label.getD "")
    let ident := pyStrip (data.target_email.getD "")
    let target_user := resolve_target db.users ident
    let row : Request := {
      id := new_id
      requester_id := uid
      requester_email := ((db.users.find? (fun u => u.id = uid)).map User.email).getD ""
      target_user_id := target_user.map User.id
      target_email := match target_user with
        | some u => u.email
        | none => ident
      label := cleaned_title
      notes := data.notes.getD ""
      status := .pending
      information_types := data.information_types.getD []
      response_at := none }
    (.created new_id, { db with requests := db.requests ++ [row] })

/-! ## Request fulfillment (`submit_verification` in `verification.py`) -/

/-- The state `submit_verification` mutates: the addressed request row and
the `shareable_keys` table it inserts into. -/
structure VState where
  req : Request
  keys : List ShareableKey
deriving DecidableEq, Repr

/-- Error outcomes of `submit_verification` (400 missing request id, 403
not the target, 400 non-pending state, 500 with rollback when the final
commit fails). -/
inductive FulfillError
  | badRequest
  | forbidden
  | stateConflict (s : RequestStatus)
  | storageFailure
deriving DecidableEq, Repr

/-- The `ShareableKey` row `submit_verification` builds before committing:
recipient is the original requester, label and notes are derived from the
request label, the view budget comes from the submission (non-positive and
missing values fall back to 2), the bundle is `sv_user_data`. -/
def mk_response_key (new_id : Nat) (uuid : String) (uid : Nat) (req : Request)
    (u : User) (data : SVData) (now : Nat) : ShareableKey :=
  let va := match data.views_allowed with
    | some v => if v ≤ 0 then 2 else v
    | none => 2
  { id := new_id
    key_uuid := uuid
    creator_id := uid
    recipient_user_id := some req.requester_id
    recipient_email := some req.requester_email
    label := "Response to: " ++ req.label
    notes := "Verification response for request: " ++ req.label
    status := .active
    views_allowed := va
    views_used := 0
    is_shareable_link := false
    information_types := req.information_types
    user_data := sv_user_data u data now req.information_types
    last_viewed_at := none }

/-- `submit_verification(current_user_id)` with body `data`, acting on the
state `s` whose `req` is the row `data.request_id` addresses.
`current_user` is the row `User.query.get(current_user_id)` returned
(`none` when absent).  The handler stages the key insert and the request
status transition and issues a single `db.session.commit()`; `commit_ok`
models that commit, and the `except` branch rolls every staged change back,
so a failed commit returns the pre-state unchanged. -/
def submit_verification (uid : Nat) (current_user : Option User) (data : SVData)
    (s : VState) (now new_id : Nat) (uuid : String) (commit_ok : Bool) :
    Except FulfillError Unit × VState :=
  if data.request_id = none then
    (.error .badRequest, s)
  else
    match current_user with
    | none => (.error .forbidden, s)
    | some u =>
        if u.email ≠ s.req.target_email then
          (.error .forbidden, s)
        else if s.req.status ≠ .pending then
          (.error (.stateConflict s.req.status), s)
        else
          let key := mk_response_key new_id uuid uid s.req u data now
          if commit_ok then
            (.ok (),
             { req := { s.req with status := .completed, response_at := some now }
               keys := s.keys ++ [key] })
          else
            (.error .storageFailure, s)

/-! ## Derived predicates -/

/-- The view-accounting invariant as the state machine actually maintains
it: the counter never exceeds the budget, and a key that is still `active`
has strictly unconsumed budget. -/
def ViewInvariant (key : ShareableKey) : Prop :=
  key.views_used ≤ key.views_allowed ∧
  (key.status = .active → key.views_used < key.views_allowed)

instance (key : ShareableKey) : Decidable (ViewInvariant key) := by
  unfold ViewInvariant
  infer_instance

/-- Whether a bundle's `location` entry (when present) carries only the
human-readable city display string, with no raw coordinates. -/
def location_city_only (d : UserData) : Bool :=
  match d.location with
  | none => true
  | some loc => loc.latitude = none ∧ loc.longitude = none

/-! ## Concrete fixtures used by witnesses and counterexamples -/

/-- A bundle whose location entry is already city-display-only. -/
def bundle0 : UserData :=
  { UserData.empty with fullname := some "Ada Lovelace",
                        location := some ⟨some "New York", none, none⟩ }

/-- A bundle carrying raw coordinates in its location entry (as minted by
`submit_verification` in `verification.py`). -/
def bundleCoord : UserData :=
  { UserData.empty with fullname := some "Ada Lovelace",
                        location := some ⟨some "New York", some "40.7128", some "-74.0060"⟩ }

/-- A fresh active key with a budget of two views, creator 1 and bound
recipient 7. -/
def key0 : ShareableKey :=
  { id := 1, key_uuid := "k-1", creator_id := 1, recipient_user_id := some 7,
    recipient_email := some "r@x.com", label := "Test key", notes := "",
    status := .active, views_allowed := 2, views_used := 0,
    is_shareable_link := false, information_types := ["fullname", "location"],
    user_data := bundle0, last_viewed_at := none }

/-- A drifted row: still `active` although its counter already equals its
budget (the situation the sweep exists to repair). -/
def keyDrift : ShareableKey :=
  { key0 with id := 2, key_uuid := "k-2", views_used := 2 }

/-- A revoked key with its whole view budget unconsumed. -/
def keyRevoked : ShareableKey :=
  { key0 with id := 3, key_uuid := "k-3", status := .revoked }

/-- A removed key whose counter has reached its budget. -/
def keyRemovedDrift : ShareableKey :=
  { key0 with id := 4, key_uuid := "k-4", status := .removed, views_used := 2 }

/-- A removed key whose stored bundle carries raw coordinates. -/
def keyRemovedCoord : ShareableKey :=
  { key0 with id := 5, key_uuid := "k-5", status := .removed, user_data := bundleCoord }

/-- A viewed-out key whose counter sits below its budget (drifted the other
way). -/
def keyViewedOutDrift : ShareableKey :=
  { key0 with id := 6, key_uuid := "k-6", status := .viewed_out, views_used := 1 }

/-- The responder (target) user of the fulfillment fixtures. -/
def userTarget : User :=
  { id := 5, email := "tgt@x.com", screen_name := "tgt",
    first_name := some "Tina", last_name := some "Target",
    verified_first_name := none, verified_last_name := none,
    age := some 30, is_verified := false, is_active := true,
    verified_at := none, verification_level := none }

/-- A pending location request from user 9 to `userTarget`. -/
def reqPending : Request :=
  { id := 3, requester_id := 9, requester_email := "req@x.com",
    target_user_id := some 5, target_email := "tgt@x.com",
    label := "Who are you", notes := "", status := .pending,
    information_types := ["location"], response_at := none }

/-- Fulfillment pre-state: the pending request and an empty key table. -/
def vs0 : VState :=
  { req := reqPending, keys := [] }

/-- A submission for `submit_verification` carrying raw coordinates. -/
def svCoordData : SVData :=
  { request_id := some 3, views_allowed := none, additional_data := none,
    latitude := some "40.7128", longitude := some "-74.0060",
    location_city_display := some "New York", location_data := none,
    selfie_base64 := none, photo_base64 := none }

/-- A user who will be both requester and resolved target of
`selfReqData`. -/
def userSelf : User :=
  { id := 1, email := "ada@x.com", screen_name := "ada",
    first_name := some "Ada", last_name := some "Lovelace",
    verified_first_name := none, verified_last_name := none,
    age := some 36, is_verified := false, is_active := true,
    verified_at := none, verification_level := none }

/-- A request-table state holding only `userSelf`. -/
def rdb0 : RequestsDb :=
  { users := [userSelf], requests := [] }

/-- A `create_request` body whose target email is the requester's own. -/
def selfReqData : CreateRequestData :=
  { label := some "Need your info", target_email := some "ada@x.com",
    notes := none, information_types := some ["age"] }

/-! ## Branch lemmas for `get_key_details` -/

/-- A recipient read of an `active` key that does not exhaust the budget:
the counter is incremented, `last_viewed_at` stamped, status kept. -/
theorem record_view_step (uid now : Nat) (key : ShareableKey)
    (hrec : key.recipient_user_id = some uid) (hst : key.status = .active)
    (hlt : key.views_used + 1 < key.views_allowed) :
    get_key_details uid key now =
      (.ok (mk_details { key with views_used := key.views_used + 1,
                                  last_viewed_at := some now }),
       { key with views_used := key.views_used + 1, last_viewed_at := some now }) := by
  simp only [get_key_details]
  rw [if_neg (by simp [hrec]), if_neg (by simp [hst]), if_pos ⟨hrec, hst⟩,
    if_neg (by show ¬ key.views_used + 1 ≥ key.views_allowed; omega)]

/-- A recipient read of an `active` key that consumes the last view: the
counter is incremented and the status transitions to `viewed_out`, with the
details (including the bundle) still returned. -/
theorem record_view_exhaust (uid now : Nat) (key : ShareableKey)
    (hrec : key.recipient_user_id = some uid) (hst : key.status = .active)
    (hge : key.views_used + 1 ≥ key.views_allowed) :
    get_key_details uid key now =
      (.ok (mk_details { key with views_used := key.views_used + 1,
                                  last_viewed_at := some now, status := .viewed_out }),
       { key with views_used := key.views_used + 1, last_viewed_at := some now,
                  status := .viewed_out }) := by
  simp only [get_key_details]
  rw [if_neg (by simp [hrec]), if_neg (by simp [hst]), if_pos ⟨hrec, hst⟩,
    if_pos (by show key.views_used + 1 ≥ key.views_allowed; omega)]

/-- A recipient read of an exhausted `viewed_out` key: the 403 body is
returned and the row is untouched. -/
theorem record_view_reject (uid now : Nat) (key : ShareableKey)
    (hrec : key.recipient_user_id = some uid) (hst : key.status = .viewed_out)
    (hge : key.views_used ≥ key.views_allowed) :
    get_key_details uid key now =
      (.exhausted key.views_used key.views_allowed, key) := by
  simp only [get_key_details]
  rw [if_neg (by simp [hrec]), if_pos ⟨hrec, hst, hge⟩]

/-- Any surviving read that hits neither the exhausted branch nor the
view-counting branch returns the details and leaves the row untouched. -/
theorem details_passive (uid now : Nat) (key : ShareableKey)
    (hacc : key.creator_id = uid ∨ key.recipient_user_id = some uid)
    (hnex : ¬ (key.recipient_user_id = some uid ∧ key.status = .viewed_out ∧
      key.views_used ≥ key.views_allowed))
    (hmut : ¬ (key.recipient_user_id = some uid ∧ key.status = .active)) :
    get_key_details uid key now = (.ok (mk_details key), key) := by
  simp only [get_key_details]
  rw [if_neg (by simp [hacc]), if_neg hnex, if_neg hmut]

/-- A read by an actor who is neither creator nor recipient: 404 and no
change. -/
theorem details_not_found (uid now : Nat) (key : ShareableKey)
    (hacc : ¬ (key.creator_id = uid ∨ key.recipient_user_id = some uid)) :
    get_key_details uid key now = (.notFound, key) := by
  simp only [get_key_details]
  rw [if_pos hacc]

/-! ## Claims -/

/-- C1.  The claim quantifies over every state satisfying the bare bound
`views_used ≤ views_allowed`.  It fails there: on a drifted row that is
still `active` with `views_used = views_allowed` (the very state the sweep
exists to repair), a recipient read increments past the budget.
`keyDrift` is active with counter 2 and budget 2; the read leaves
`views_used = 3 > 2 = views_allowed`. -/
theorem record_view_breaks_bare_bound_on_drifted_key :
    keyDrift.views_used ≤ keyDrift.views_allowed ∧
    ((get_key_details 7 keyDrift 0).2).views_used >
      ((get_key_details 7 keyDrift 0).2).views_allowed := by
  decide

/-- C1 (amended).  The invariant the operations actually preserve is the
combined one: `views_used ≤ views_allowed` together with `status = active →
views_used < views_allowed`.  Starting from any state satisfying it, both a
recipient read (`get_key_details`) and the exhausted-key sweep preserve it,
and in particular leave `views_used ≤ views_allowed`. -/
theorem record_view_and_sweep_preserve_view_invariant (uid now : Nat)
    (key : ShareableKey) (h : ViewInvariant key) :
    ViewInvariant ((get_key_details uid key now).2) ∧
    ViewInvariant (sweep_key key) := by
  obtain ⟨h1, h2⟩ := h
  constructor
  · by_cases hacc : key.creator_id = uid ∨ key.recipient_user_id = some uid
    · by_cases hmut : key.recipient_user_id = some uid ∧ key.status = .active
      · have hlt : key.views_used < key.views_allowed := h2 hmut.2
        by_cases hge : key.views_used + 1 ≥ key.views_allowed
        · rw [record_view_exhaust uid now key hmut.1 hmut.2 hge]
          refine ⟨by show key.views_used + 1 ≤ key.views_allowed; omega, ?_⟩
          intro hcon
          exact absurd hcon (by simp)
        · rw [record_view_step uid now key hmut.1 hmut.2 (by omega)]
          exact ⟨by show key.views_used + 1 ≤ key.views_allowed; omega,
            fun _ => by show key.views_used + 1 < key.views_allowed; omega⟩
      · by_cases hnex : key.recipient_user_id = some uid ∧ key.status = .viewed_out ∧
          key.views_used ≥ key.views_allowed
        · rw [record_view_reject uid now key hnex.1 hnex.2.1 hnex.2.2]
          exact ⟨h1, h2⟩
        · rw [details_passive uid now key hacc hnex hmut]
          exact ⟨h1, h2⟩
    · rw [details_not_found uid now key hacc]
      exact ⟨h1, h2⟩
  · unfold sweep_key
    by_cases hs : key.status = .active ∧ key.views_used ≥ key.views_allowed
    · rw [if_pos hs]
      exact ⟨h1, fun hcon => absurd hcon (by simp)⟩
    · rw [if_neg hs]
      exact ⟨h1, h2⟩

/-- C1 (witness): the amended invariant-preservation theorem applied to the
concrete fresh key `key0`. -/
theorem record_view_and_sweep_preserve_view_invariant_witness :
    ViewInvariant key0 ∧
    (ViewInvariant ((get_key_details 7 key0 0).2) ∧ ViewInvariant (sweep_key key0)) :=
  ⟨by decide, record_view_and_sweep_preserve_view_invariant 7 0 key0 (by decide)⟩

/-- C2.  Scenario A: on a key with a budget of two views, bound recipient
`uid`, a fresh counter and a stored bundle whose location entry is already
city-display-only, two successive recipient reads both succeed and return
the stored bundle; the first leaves the key `active` with one view used,
the second (the exhausting view) still returns the bundle and transitions
the key to `viewed_out` with both views used; a third read is rejected with
the exhausted-views state-conflict body and leaves the row — in particular
`views_used` — unchanged. -/
theorem scenario_a_two_views_then_reject (uid now1 now2 now3 : Nat)
    (key : ShareableKey)
    (hrec : key.recipient_user_id = some uid)
    (hst : key.status = .active)
    (hused : key.views_used = 0)
    (hallow : key.views_allowed = 2)
    (hloc : sanitize_location key.user_data = key.user_data) :
    (get_key_details uid key now1).1.bundle = some key.user_data ∧
    ((get_key_details uid key now1).2).status = .active ∧
    ((get_key_details uid key now1).2).views_used = 1 ∧
    (get_key_details uid ((get_key_details uid key now1).2) now2).1.bundle =
      some key.user_data ∧
    ((get_key_details uid ((get_key_details uid key now1).2) now2).2).status =
      .viewed_out ∧
    ((get_key_details uid ((get_key_details uid key now1).2) now2).2).views_used = 2 ∧
    (get_key_details uid
        ((get_key_details uid ((get_key_details uid key now1).2) now2).2) now3).1 =
      .exhausted 2 2 ∧
    (get_key_details uid
        ((get_key_details uid ((get_key_details uid key now1).2) now2).2) now3).2 =
      ((get_key_details uid ((get_key_details uid key now1).2) now2).2) := by
  have e1 := record_view_step uid now1 key hrec hst (by omega)
  set k1 : ShareableKey :=
    { key with views_used := key.views_used + 1, last_viewed_at := some now1 } with hk1
  have hrec1 : k1.recipient_user_id = some uid := hrec
  have hst1 : k1.status = .active := hst
  have e2 := record_view_exhaust uid now2 k1 hrec1 hst1
    (by show key.views_used + 1 + 1 ≥ key.views_allowed; omega)
  set k2 : ShareableKey :=
    { k1 with views_used := k1.views_used + 1, last_viewed_at := some now2,
              status := .viewed_out } with hk2
  have e3 := record_view_reject uid now3 k2 hrec
    (by show KeyStatus.viewed_out = KeyStatus.viewed_out; rfl)
    (by show key.views_used + 1 + 1 ≥ key.views_allowed; omega)
  rw [e1]
  simp only [Prod.fst, Prod.snd]
  rw [e2, e3]
  refine ⟨?_, hst, ?_, ?_, rfl, ?_, ?_, rfl⟩
  · simp [DetailsResult.bundle, mk_details, hloc]
  · show key.views_used + 1 = 1; omega
  · show DetailsResult.bundle (.ok (mk_details k2)) = some key.user_data
    simp [DetailsResult.bundle, mk_details, hk2, hk1, hloc]
  · show key.views_used + 1 + 1 = 2; omega
  · show DetailsResult.exhausted (key.views_used + 1 + 1) key.views_allowed =
      .exhausted 2 2
    rw [hused, hallow]
    norm_num

/-- C2 (witness): Scenario A run on the concrete key `key0` at ticks 10,
11, 12. -/
theorem scenario_a_two_views_then_reject_witness :
    (key0.recipient_user_id = some 7 ∧ key0.status = .active ∧
      key0.views_used = 0 ∧ key0.views_allowed = 2 ∧
      sanitize_location key0.user_data = key0.user_data) ∧
    (get_key_details 7 key0 10).1.bundle = some key0.user_data ∧
    ((get_key_details 7 key0 10).2).status = .active ∧
    ((get_key_details 7 key0 10).2).views_used = 1 ∧
    (get_key_details 7 ((get_key_details 7 key0 10).2) 11).1.bundle =
      some key0.user_data ∧
    ((get_key_details 7 ((get_key_details 7 key0 10).2) 11).2).status = .viewed_out ∧
    ((get_key_details 7 ((get_key_details 7 key0 10).2) 11).2).views_used = 2 ∧
    (get_key_details 7 ((get_key_details 7 ((get_key_details 7 key0 10).2) 11).2) 12).1 =
      .exhausted 2 2 ∧
    (get_key_details 7 ((get_key_details 7 ((get_key_details 7 key0 10).2) 11).2) 12).2 =
      ((get_key_details 7 ((get_key_details 7 key0 10).2) 11).2) :=
  ⟨⟨by decide, by decide, by decide, by decide, by decide⟩,
   scenario_a_two_views_then_reject 7 10 11 12 key0 (by decide) (by decide)
     (by decide) (by decide) (by decide)⟩

/-- C3.  `submit_verification` is atomic: for every pre-state, every actor,
every submission and every commit outcome, either the call succeeds and the
post-state has exactly one new key appended with the request transitioned
to `completed` and `response_at` stamped, or the call fails and the
post-state is the pre-state unchanged.  No outcome inserts the key while
the request stays `pending`, or completes the request without the key. -/
theorem submit_verification_atomic (uid : Nat) (current_user : Option User)
    (data : SVData) (s : VState) (now new_id : Nat) (uuid : String)
    (commit_ok : Bool) :
    ((submit_verification uid current_user data s now new_id uuid commit_ok).1 =
        .ok () ∧
      (∃ k, (submit_verification uid current_user data s now new_id uuid commit_ok).2 =
        ⟨{ s.req with status := .completed, response_at := some now }, s.keys ++ [k]⟩)) ∨
    ((submit_verification uid current_user data s now new_id uuid commit_ok).1 ≠
        .ok () ∧
      (submit_verification uid current_user data s now new_id uuid commit_ok).2 = s) := by
  unfold submit_verification
  by_cases hid : data.request_id = none
  · right
    rw [if_pos hid]
    exact ⟨by simp, rfl⟩
  · rw [if_neg hid]
    match current_user with
    | none => exact .inr ⟨by simp, rfl⟩
    | some u =>
        dsimp only
        by_cases hm : u.email ≠ s.req.target_email
        · right
          rw [if_pos hm]
          exact ⟨by simp, rfl⟩
        · rw [if_neg hm]
          by_cases hp : s.req.status ≠ .pending
          · right
            rw [if_pos hp]
            exact ⟨by simp, rfl⟩
          · rw [if_neg hp]
            cases commit_ok with
            | true =>
                left
                exact ⟨rfl, ⟨mk_response_key new_id uuid uid s.req u data now, rfl⟩⟩
            | false => exact .inr ⟨by simp, rfl⟩

/-- C4.  The code violates the claim: after a creator revokes a key, a
details read by the bound recipient is NOT rejected.  On the concrete
revoked key `keyRevoked` (status `revoked`, budget 2, counter 0, bound
recipient 7), the recipient's read returns the 200 body carrying the full
stored bundle, and leaves the row unchanged — so the bundle stays readable
(arbitrarily often, with no view accounting) after revocation.  The claim
matches the evident intent of `revoke_key` (revocation as terminal,
creator-initiated access denial: spec §4.2 and Scenario D); the fall-through
in `get_key_details`, which rejects only exhausted `viewed_out` keys, is the
slip. -/
theorem revoked_key_details_returns_bundle :
    keyRevoked.status = .revoked ∧
    (get_key_details 7 keyRevoked 5).1.isOk = true ∧
    (get_key_details 7 keyRevoked 5).1.bundle = some keyRevoked.user_data ∧
    (get_key_details 7 keyRevoked 5).2 = keyRevoked := by
  decide

/-- C5.  The code violates the claim for the recipient: `delete_key` only
guards the creator's path with the active-status check.  On the concrete
active key `key0` (creator 1, bound recipient 7), a delete by recipient 7
succeeds and the row is gone, although the key is `active`. -/
theorem recipient_can_delete_active_key :
    key0.status = .active ∧
    delete_key 7 key0 = (.deleted, none) := by
  decide

/-- C5 (amended).  `delete_key` rejects an active key only when the actor
is its creator; the creator's delete succeeds from every non-active status;
a recipient who is not the creator can delete the key whatever its status,
active included. -/
theorem delete_key_active_guard_is_creator_only (uid : Nat) (key : ShareableKey) :
    (key.creator_id = uid → key.status = .active →
      delete_key uid key = (.rejectedActive, some key)) ∧
    (key.creator_id = uid → key.status ≠ .active →
      delete_key uid key = (.deleted, none)) ∧
    (key.creator_id ≠ uid → key.recipient_user_id = some uid →
      delete_key uid key = (.deleted, none)) := by
  refine ⟨fun hc hs => ?_, fun hc hs => ?_, fun hc hr => ?_⟩
  · unfold delete_key
    rw [if_pos hc, if_pos hs]
  · unfold delete_key
    rw [if_pos hc, if_neg hs]
  · unfold delete_key
    rw [if_neg hc, if_pos hr]

/-- C5 (witness): the amended delete rules exercised on concrete keys — the
creator's delete of the active `key0` is rejected, the creator's delete of
the revoked `keyRevoked` succeeds, and recipient 7's delete of the removed
`keyRemovedDrift` succeeds. -/
theorem delete_key_active_guard_is_creator_only_witness :
    delete_key 1 key0 = (.rejectedActive, some key0) ∧
    delete_key 1 keyRevoked = (.deleted, none) ∧
    delete_key 7 keyRemovedDrift = (.deleted, none) :=
  ⟨(delete_key_active_guard_is_creator_only 1 key0).1 (by decide) (by decide),
   (delete_key_active_guard_is_creator_only 1 keyRevoked).2.1 (by decide) (by decide),
   (delete_key_active_guard_is_creator_only 7 keyRemovedDrift).2.2 (by decide) (by decide)⟩

/-- C6.  The code violates the claim: `remove_received_key` sets the status
to `removed` with no check of the current status, so the recipient's remove
is a transition that leaves `revoked`.  On the concrete revoked key
`keyRevoked` with bound recipient 7, the remove succeeds and the status
becomes `removed`. -/
theorem remove_transitions_revoked_to_removed :
    keyRevoked.status = .revoked ∧
    (remove_received_key 7 keyRevoked).1 = true ∧
    ((remove_received_key 7 keyRevoked).2).status = .removed := by
  decide

/-- C6 (amended).  For a revoked key, a details read, the exhausted-key
sweep, a revoke call and the reconciliation helper all leave the status
`revoked`; the recipient's `remove_received_key` is the one exception — it
rewrites the status to `removed` (and leaves a non-recipient caller's row
untouched). -/
theorem revoked_status_preserved_except_remove (uid now : Nat)
    (key : ShareableKey) (h : key.status = .revoked) :
    ((get_key_details uid key now).2).status = .revoked ∧
    (sweep_key key).status = .revoked ∧
    ((revoke_key uid key).2).status = .revoked ∧
    ((update_status_if_needed key).1).status = .revoked ∧
    ((remove_received_key uid key).2).status =
      (if key.recipient_user_id = some uid then KeyStatus.removed
       else KeyStatus.revoked) := by
  refine ⟨?_, ?_, ?_, ?_, ?_⟩
  · by_cases hacc : key.creator_id = uid ∨ key.recipient_user_id = some uid
    · rw [details_passive uid now key hacc (by simp [h]) (by simp [h])]
      exact h
    · rw [details_not_found uid now key hacc]
      exact h
  · unfold sweep_key
    rw [if_neg (by simp [h])]
    exact h
  · unfold revoke_key
    by_cases hc : key.creator_id ≠ uid
    · rw [if_pos hc]
      exact h
    · rw [if_neg hc, if_pos (by simp [h])]
      exact h
  · unfold update_status_if_needed
    rw [if_pos h]
    exact h
  · unfold remove_received_key
    by_cases hr : key.recipient_user_id = some uid
    · rw [if_pos hr, if_pos hr]
    · rw [if_neg hr, if_neg hr]
      exact h

/-- C6 (witness): the preservation rules applied to the concrete revoked
key `keyRevoked` read/revoked/reconciled/removed by its recipient 7. -/
theorem revoked_status_preserved_except_remove_witness :
    keyRevoked.status = .revoked ∧
    (((get_key_details 7 keyRevoked 0).2).status = .revoked ∧
     (sweep_key keyRevoked).status = .revoked ∧
     ((revoke_key 7 keyRevoked).2).status = .revoked ∧
     ((update_status_if_needed keyRevoked).1).status = .revoked ∧
     ((remove_received_key 7 keyRevoked).2).status =
       (if keyRevoked.recipient_user_id = some 7 then KeyStatus.removed
        else KeyStatus.revoked)) :=
  ⟨by decide, revoked_status_preserved_except_remove 7 0 keyRevoked (by decide)⟩

/-- Helper for C7: one step of the `create_shareable_key` builder loop
keeps the location entry city-display-only. -/
theorem create_key_apply_city_only (u : User) (cd : CreateKeyData) (now : Nat)
    (acc : UserData) (t : String) (h : location_city_only acc = true) :
    location_city_only (create_key_apply u cd now acc t) = true := by
  unfold create_key_apply
  split_ifs with h1 h2 h3 h4 h5 h6
  · simpa [location_city_only] using h
  · simpa [location_city_only] using h
  · simpa [location_city_only] using h
  · cases cd.location_data <;> cases cd.user_data_location <;>
      simp [location_city_only]
  · cases cd.selfie_data <;> cases cd.user_data_selfie <;>
      simpa [location_city_only] using h
  · cases cd.photo_data <;> cases cd.user_data_photo <;>
      simpa [location_city_only] using h
  · exact h

/-- Helper for C7: the whole `create_shareable_key` builder loop keeps the
location entry city-display-only. -/
theorem create_key_foldl_city_only (u : User) (cd : CreateKeyData) (now : Nat) :
    ∀ (types : List String) (acc : UserData), location_city_only acc = true →
    location_city_only (types.foldl (create_key_apply u cd now) acc) = true := by
  intro types
  induction types with
  | nil => exact fun acc h => h
  | cons t ts ih => exact fun acc h => ih _ (create_key_apply_city_only u cd now acc t h)

/-- Helper for C7: one step of the `submit_verification_response` builder
loop (`keys.py`) keeps the location entry city-display-only. -/
theorem svr_apply_city_only (u : User) (sd : SVRData) (now : Nat)
    (acc : UserData) (t : String) (h : location_city_only acc = true) :
    location_city_only (svr_apply u sd now acc t) = true := by
  unfold svr_apply
  split_ifs with h1 h2 h3 h4 h5 h6
  · simpa [location_city_only] using h
  · simpa [location_city_only] using h
  · simpa [location_city_only] using h
  · simp [location_city_only]
  · simp [location_city_only]
  · cases sd.photo_base64 <;> simpa [location_city_only] using h
  · cases sd.photo_base64 <;> simpa [location_city_only] using h
  · exact h

/-- Helper for C7: the whole `submit_verification_response` builder loop
keeps the location entry city-display-only. -/
theorem svr_foldl_city_only (u : User) (sd : SVRData) (now : Nat) :
    ∀ (types : List String) (acc : UserData), location_city_only acc = true →
    location_city_only (types.foldl (svr_apply u sd now) acc) = true := by
  intro types
  induction types with
  | nil => exact fun acc h => h
  | cons t ts ih => exact fun acc h => ih _ (svr_apply_city_only u sd now acc t h)

/-- C7.  The code violates the claim on the fulfillment path:
`submit_verification` in `verification.py` persists the raw coordinates.
Fulfilling the concrete pending location request with a submission carrying
`latitude`/`longitude` mints a key whose stored location entry holds those
raw coordinates alongside the city display string. -/
theorem fulfill_persists_raw_coordinates :
    (submit_verification 5 (some userTarget) svCoordData vs0 0 9 "k-9" true).2.keys.map
        (fun k => k.user_data.location) =
      [some ⟨some "New York", some "40.7128", some "-74.0060"⟩] ∧
    (submit_verification 5 (some userTarget) svCoordData vs0 0 9 "k-9" true).2.keys.map
        (fun k => location_city_only k.user_data) = [false] := by
  decide

/-- C7 (amended).  The two `keys.py` minting paths do satisfy the claim:
for every user, request body and category list, the bundles built by
`create_shareable_key` and by `submit_verification_response` carry only the
city display string in their location entry; and the `get_key_details` read
path reduces any stored location entry to city-display-only before
returning it.  Only `submit_verification` in `verification.py` persists raw
coordinates (the counterexample above). -/
theorem keys_py_bundles_location_city_only (u : User) (cd : CreateKeyData)
    (sd : SVRData) (d : UserData) (now : Nat) (types : List String) :
    location_city_only (create_key_user_data u cd now types) = true ∧
    location_city_only (svr_user_data u sd now types) = true ∧
    location_city_only (sanitize_location d) = true := by
  refine ⟨?_, ?_, ?_⟩
  · unfold create_key_user_data
    have hb := create_key_foldl_city_only u cd now types UserData.empty (by decide)
    by_cases hv : u.is_verified
    · rw [if_pos hv]
      simpa [location_city_only] using hb
    · rw [if_neg hv]
      exact hb
  · unfold svr_user_data
    have hb := svr_foldl_city_only u sd now types UserData.empty (by decide)
    by_cases hv : u.is_verified
    · rw [if_pos hv]
      simpa [location_city_only] using hb
    · rw [if_neg hv]
      exact hb
  · rcases hd : d.location with _ | loc <;>
      simp [sanitize_location, location_city_only, hd]

/-- C8.  The code violates the claim: `create_request` has no self-target
check.  With the concrete single-user table `rdb0`, user 1 targeting their
own email is accepted — the target resolves to the requester, the call
returns 201, and a `pending` request row with `target_user_id` equal to the
requester is inserted. -/
theorem create_request_accepts_self_target :
    resolve_target rdb0.users "ada@x.com" = some userSelf ∧
    (create_request 1 selfReqData rdb0 11).1 = .created 11 ∧
    (create_request 1 selfReqData rdb0 11).2.requests.map
        (fun r => (r.requester_id, r.target_user_id, r.status)) =
      [(1, some 1, RequestStatus.pending)] := by
  decide

/-- C8 (amended).  `create_request` performs no self-target check: for
every requester and every body that passes the label/target/categories
guards and whose target resolves to the requester's own account, the call
succeeds and inserts a `pending` request row targeting the requester. -/
theorem create_request_no_self_target_check (uid new_id : Nat)
    (data : CreateRequestData) (db : RequestsDb) (u : User)
    (hl : (data.label.getD "") ≠ "")
    (hv : (validate_title (data.label.getD "")).1 = true)
    (ht : (data.target_email.getD "") ≠ "")
    (hi : (data.information_types.getD []) ≠ [])
    (hres : resolve_target db.users (pyStrip (data.target_email.getD "")) = some u)
    (hid : u.id = uid) :
    (create_request uid data db new_id).1 = .created new_id ∧
    ∃ r, (create_request uid data db new_id).2.requests = db.requests ++ [r] ∧
      r.requester_id = uid ∧ r.target_user_id = some uid ∧ r.status = .pending := by
  unfold create_request
  rw [if_neg hl, if_neg (by simp [hv]), if_neg ht, if_neg hi]
  refine ⟨rfl, ⟨_, rfl, rfl, ?_, rfl⟩⟩
  show (resolve_target db.users (pyStrip (data.target_email.getD ""))).map User.id = some uid
  rw [hres]
  simp [hid]

/-- C8 (witness): the no-self-check theorem applied to the concrete
self-targeting request of user 1. -/
theorem create_request_no_self_target_check_witness :
    ((selfReqData.label.getD "") ≠ "" ∧
      (validate_title (selfReqData.label.getD "")).1 = true ∧
      (selfReqData.target_email.getD "") ≠ "" ∧
      (selfReqData.information_types.getD []) ≠ [] ∧
      resolve_target rdb0.users (pyStrip (selfReqData.target_email.getD "")) = some userSelf ∧
      userSelf.id = 1) ∧
    ((create_request 1 selfReqData rdb0 11).1 = .created 11 ∧
      ∃ r, (create_request 1 selfReqData rdb0 11).2.requests = rdb0.requests ++ [r] ∧
        r.requester_id = 1 ∧ r.target_user_id = some 1 ∧ r.status = .pending) :=
  ⟨⟨by decide, by decide, by decide, by decide, by decide, by decide⟩,
   create_request_no_self_target_check 1 11 selfReqData rdb0 userSelf
     (by decide) (by decide) (by decide) (by decide) (by decide) (by decide)⟩

/-- C9.  The code violates the claim for the reconciliation helper: on the
concrete removed-and-exhausted key `keyRemovedDrift`,
`KeyStatusManager.update_status_if_needed` rewrites a non-`active` status —
`removed` becomes `viewed_out`. -/
theorem reconciliation_rewrites_removed_key :
    keyRemovedDrift.status = .removed ∧
    ((update_status_if_needed keyRemovedDrift).1).status = .viewed_out := by
  decide

/-- C9 (amended).  The sweep run by `get_all_keys` does satisfy the claim:
it leaves every non-`active` key unchanged, and any status change it makes
is `active` to `viewed_out`.  The helper
`KeyStatusManager.update_status_if_needed` is weaker: it never touches a
`revoked` key, but its status changes can also rewrite a non-`active` key —
any change it makes sets `viewed_out`, or sets a drifted `viewed_out` key
back to `active`. -/
theorem sweep_moves_only_active_to_viewed_out (key : ShareableKey) :
    (key.status ≠ .active → sweep_key key = key) ∧
    ((sweep_key key).status ≠ key.status →
      key.status = .active ∧ (sweep_key key).status = .viewed_out) ∧
    (key.status = .revoked → (update_status_if_needed key).1 = key) ∧
    (((update_status_if_needed key).1).status ≠ key.status →
      ((update_status_if_needed key).1).status = .viewed_out ∨
      (key.status = .viewed_out ∧ ((update_status_if_needed key).1).status = .active)) := by
  refine ⟨fun h => ?_, fun h => ?_, fun h => ?_, fun h => ?_⟩
  · unfold sweep_key
    rw [if_neg (fun hc => h hc.1)]
  · unfold sweep_key at h ⊢
    by_cases hc : key.status = .active ∧ key.views_used ≥ key.views_allowed
    · rw [if_pos hc]
      exact ⟨hc.1, rfl⟩
    · rw [if_neg hc] at h
      exact absurd rfl h
  · unfold update_status_if_needed
    rw [if_pos h]
  · simp only [update_status_if_needed] at h ⊢
    split_ifs at h ⊢ with h1 h2 h3 <;> simp_all

/-- C9 (witness): the amended sweep/reconciliation rules exercised on
concrete keys — the sweep leaves the revoked key alone, moves the drifted
active key to `viewed_out`; the helper leaves the revoked key alone and its
rewrite of the removed exhausted key lands on `viewed_out`. -/
theorem sweep_moves_only_active_to_viewed_out_witness :
    sweep_key keyRevoked = keyRevoked ∧
    (keyDrift.status = .active ∧ (sweep_key keyDrift).status = .viewed_out) ∧
    (update_status_if_needed keyRevoked).1 = keyRevoked ∧
    (((update_status_if_needed keyRemovedDrift).1).status = .viewed_out ∨
      (keyRemovedDrift.status = .viewed_out ∧
        ((update_status_if_needed keyRemovedDrift).1).status = .active)) :=
  ⟨(sweep_moves_only_active_to_viewed_out keyRevoked).1 (by decide),
   (sweep_moves_only_active_to_viewed_out keyDrift).2.1 (by decide),
   (sweep_moves_only_active_to_viewed_out keyRevoked).2.2.1 (by decide),
   (sweep_moves_only_active_to_viewed_out keyRemovedDrift).2.2.2 (by decide)⟩

/-- C10.  The code violates one part of the claim: the details read of a
removed key does succeed and does leave the row entirely unchanged, but the
returned contents are not the full stored bundle — the read path reduces
the location entry to its city display string.  On the concrete removed key
`keyRemovedCoord`, whose stored bundle carries raw coordinates, the
returned bundle differs from the stored one. -/
theorem removed_key_details_not_full_bundle :
    keyRemovedCoord.status = .removed ∧
    (get_key_details 7 keyRemovedCoord 3).2 = keyRemovedCoord ∧
    (get_key_details 7 keyRemovedCoord 3).1.isOk = true ∧
    (get_key_details 7 keyRemovedCoord 3).1.bundle ≠ some keyRemovedCoord.user_data := by
  decide

/-- C10 (amended).  For every removed key, a details read by the bound
recipient succeeds and returns the stored bundle with its location entry
reduced to the city display string, and leaves the row entirely unchanged —
no `views_used` increment, the status stays `removed`, `last_viewed_at`
untouched. -/
theorem removed_key_read_is_pure (uid now : Nat) (key : ShareableKey)
    (hst : key.status = .removed) (hrec : key.recipient_user_id = some uid) :
    (get_key_details uid key now).2 = key ∧
    (get_key_details uid key now).1 = .ok (mk_details key) := by
  rw [details_passive uid now key (Or.inr hrec) (by simp [hst]) (by simp [hst])]
  exact ⟨rfl, rfl⟩

/-- C10 (witness): the pure-read theorem applied to the concrete removed
key `keyRemovedCoord` and its recipient 7. -/
theorem removed_key_read_is_pure_witness :
    (keyRemovedCoord.status = .removed ∧
      keyRemovedCoord.recipient_user_id = some 7) ∧
    ((get_key_details 7 keyRemovedCoord 3).2 = keyRemovedCoord ∧
      (get_key_details 7 keyRemovedCoord 3).1 = .ok (mk_details keyRemovedCoord)) :=
  ⟨⟨by decide, by decide⟩,
   removed_key_read_is_pure 7 3 keyRemovedCoord (by decide) (by decide)⟩

end Verikey
